import Mathlib

/-!
Verification of the Chord DHT subsystem (src/chord_dht/chord_subsystem.py).

The embedding below translates the Python source into Lean definitions:

* bytes objects become `List Nat` (each element a byte value);
* Python `int` becomes `Nat` (all integers handled by the module are
  non-negative: ports, node identifiers, byte values);
* code that can raise an exception returns `Except String` with the
  exception name in the message; code that can return Python `None`
  returns `Option`;
* the zmq transport is abstracted as a function from a peer address and a
  request to an optional multipart reply (`none` models a timeout, a
  connection error, or any transport exception — exactly the cases the
  source's `send_data` turns into `None`);
* the unbounded `while` loop of `find_predecessor` is given fuel; a result
  of `none` means the loop did not finish within the fuel.

`hashlib.sha1` is modelled by a full SHA-1 implementation over byte lists,
checked against the standard test vectors, because every node identifier in
the source is derived from it.
-/

set_option maxRecDepth 100000

/-! ## Bytes and integer conversions -/

/-- Python `int.from_bytes(bs)`: default byteorder is big-endian. -/
def int_from_bytes (bs : List Nat) : Nat :=
  bs.foldl (fun acc b => acc * 256 + b) 0

/-- Python `n.to_bytes()` with both defaults: `length=1`, `byteorder="big"`.
A value that does not fit one byte raises `OverflowError`. -/
def int_to_bytes_py (n : Nat) : Except String (List Nat) :=
  if n < 256 then .ok [n] else .error "OverflowError: int too big to convert"

/-- UTF-8 encoding of one character (scalar value, surrogates excluded by
`Char`). -/
def utf8Char (c : Char) : List Nat :=
  let n := c.toNat
  if n < 128 then [n]
  else if n < 2048 then [192 ||| (n >>> 6), 128 ||| (n &&& 63)]
  else if n < 65536 then
    [224 ||| (n >>> 12), 128 ||| ((n >>> 6) &&& 63), 128 ||| (n &&& 63)]
  else
    [240 ||| (n >>> 18), 128 ||| ((n >>> 12) &&& 63),
     128 ||| ((n >>> 6) &&& 63), 128 ||| (n &&& 63)]

/-- Python `s.encode()`: UTF-8 bytes of a string. -/
def utf8Encode (s : String) : List Nat :=
  s.data.foldl (fun acc c => acc ++ utf8Char c) []

/-- One step of UTF-8 decoding, with fuel (each step consumes at least one
byte, so fuel equal to the list length suffices). -/
def utf8DecodeAux : Nat → List Nat → Option (List Char)
  | _, [] => some []
  | 0, _ :: _ => none
  | fuel + 1, b :: rest =>
    if b < 128 then (utf8DecodeAux fuel rest).map (Char.ofNat b :: ·)
    else if b < 192 then none
    else if b < 224 then
      match rest with
      | b1 :: rest1 =>
        if 128 ≤ b1 ∧ b1 < 192 then
          let cp := (b - 192) * 64 + (b1 - 128)
          if cp < 128 then none
          else (utf8DecodeAux fuel rest1).map (Char.ofNat cp :: ·)
        else none
      | [] => none
    else if b < 240 then
      match rest with
      | b1 :: b2 :: rest2 =>
        if (128 ≤ b1 ∧ b1 < 192) ∧ (128 ≤ b2 ∧ b2 < 192) then
          let cp := (b - 224) * 4096 + (b1 - 128) * 64 + (b2 - 128)
          if cp < 2048 ∨ (55296 ≤ cp ∧ cp < 57344) then none
          else (utf8DecodeAux fuel rest2).map (Char.ofNat cp :: ·)
        else none
      | _ => none
    else if b < 248 then
      match rest with
      | b1 :: b2 :: b3 :: rest3 =>
        if (128 ≤ b1 ∧ b1 < 192) ∧ (128 ≤ b2 ∧ b2 < 192) ∧ (128 ≤ b3 ∧ b3 < 192) then
          let cp := (b - 240) * 262144 + (b1 - 128) * 4096 + (b2 - 128) * 64 + (b3 - 128)
          if cp < 65536 ∨ 1114111 < cp then none
          else (utf8DecodeAux fuel rest3).map (Char.ofNat cp :: ·)
        else none
      | _ => none
    else none

/-- Python `bs.decode()`: strict UTF-8 decoding; `none` models
`UnicodeDecodeError`. -/
def utf8Decode (bs : List Nat) : Option String :=
  (utf8DecodeAux bs.length bs).map fun cs => ⟨cs⟩

/-! ## SHA-1 (models `hashlib.sha1`) -/

/-- Left rotation of a 32-bit word. -/
def rotl32 (k n : Nat) : Nat :=
  ((n <<< k) % 4294967296) ||| (n >>> (32 - k))

/-- Big-endian bytes of `n`, `k` bytes wide. -/
def beBytes (k n : Nat) : List Nat :=
  (List.range k).map fun i => (n >>> (8 * (k - 1 - i))) % 256

/-- A big-endian word from bytes. -/
def beWord (bs : List Nat) : Nat :=
  bs.foldl (fun a b => a * 256 + b) 0

/-- SHA-1 message padding: `0x80`, zeros to 56 mod 64, then the bit length
as eight big-endian bytes. -/
def sha1_pad (msg : List Nat) : List Nat :=
  let L := msg.length
  let zeros := (64 - ((L + 9) % 64)) % 64
  msg ++ [128] ++ List.replicate zeros 0 ++ beBytes 8 (8 * L)

/-- The sixteen 32-bit big-endian words of one 64-byte chunk. -/
def chunkWords (chunk : List Nat) : List Nat :=
  (List.range 16).map fun j => beWord ((chunk.drop (4 * j)).take 4)

/-- One step of the SHA-1 message-schedule extension. -/
def sha1_extend_step (acc : List Nat) : List Nat :=
  let l := acc.length
  let x := ((acc.getD (l - 3) 0) ^^^ (acc.getD (l - 8) 0)) ^^^
           ((acc.getD (l - 14) 0) ^^^ (acc.getD (l - 16) 0))
  acc ++ [rotl32 1 x]

/-- Extension of the sixteen chunk words to the eighty schedule words. -/
def sha1_extend (w : List Nat) : List Nat :=
  (List.range 64).foldl (fun acc _ => sha1_extend_step acc) w

/-- The SHA-1 round function for round `i`. -/
def sha1_f (i b c d : Nat) : Nat :=
  if i < 20 then (b &&& c) ||| ((b ^^^ 4294967295) &&& d)
  else if i < 40 then (b ^^^ c) ^^^ d
  else if i < 60 then ((b &&& c) ||| (b &&& d)) ||| (c &&& d)
  else (b ^^^ c) ^^^ d

/-- The SHA-1 round constant for round `i`. -/
def sha1_k (i : Nat) : Nat :=
  if i < 20 then 1518500249
  else if i < 40 then 1859775393
  else if i < 60 then 2400959708
  else 3395469782

/-- The five 32-bit working registers of SHA-1. -/
structure Sha1State where
  a : Nat
  b : Nat
  c : Nat
  d : Nat
  e : Nat
deriving DecidableEq

/-- One SHA-1 round: the second argument is (round index, schedule word). -/
def sha1_round (s : Sha1State) (iw : Nat × Nat) : Sha1State :=
  let t := (rotl32 5 s.a + sha1_f iw.1 s.b s.c s.d + s.e + sha1_k iw.1 + iw.2) % 4294967296
  ⟨t, s.a, rotl32 30 s.b, s.c, s.d⟩

/-- Compression of one 64-byte chunk into the running state. -/
def sha1_update (h : Sha1State) (chunk : List Nat) : Sha1State :=
  let w := sha1_extend (chunkWords chunk)
  let s := w.enum.foldl sha1_round h
  ⟨(h.a + s.a) % 4294967296, (h.b + s.b) % 4294967296, (h.c + s.c) % 4294967296,
   (h.d + s.d) % 4294967296, (h.e + s.e) % 4294967296⟩

/-- The SHA-1 initialization vector. -/
def sha1_init : Sha1State :=
  ⟨1732584193, 4023233417, 2562383102, 271733878, 3285377520⟩

/-- The SHA-1 digest of a byte string, as a big-endian 160-bit integer
(the value of `int(hashlib.sha1(bs).hexdigest(), 16)`). -/
def sha1_digest (msg : List Nat) : Nat :=
  let p := sha1_pad msg
  let chunks := (List.range (p.length / 64)).map fun i => (p.drop (64 * i)).take 64
  let h := chunks.foldl sha1_update sha1_init
  (((h.a * 4294967296 + h.b) * 4294967296 + h.c) * 4294967296 + h.d) * 4294967296 + h.e

/-- Source `getShaRepr(data)`: SHA-1 of the UTF-8 bytes of `data`, as an
integer. -/
def getShaRepr (data : String) : Nat :=
  sha1_digest (utf8Encode data)

/-- Source `get_id_of_node(ip, port)`: the id of the node at `ip:port`. -/
def get_id_of_node (ip : String) (port : Nat) : Nat :=
  getShaRepr (ip ++ ":" ++ toString port)

/-- Validation of the SHA-1 model against the standard test vector "abc". -/
theorem sha1_vector_abc :
    getShaRepr ("abc") = 0xa9993e364706816aba3e25717850c26c9cd0d89d := by
  rfl

/-- Validation of the SHA-1 model against the empty-string test vector. -/
theorem sha1_vector_empty :
    sha1_digest [] = 0xda39a3ee5e6b4b0d3255bfef95601890afd80709 := by
  rfl

/-! ## Wire protocol constants (opcode byte strings) -/

/-- Subsystem tag `b"Chord"`. -/
def CHORD_SUBSYSTEM : List Nat := utf8Encode ("Chord")

/-- Opcode `b"Find_S"`. -/
def FIND_SUCCESSOR : List Nat := utf8Encode ("Find_S")

/-- Opcode `b"Find_P"`. -/
def FIND_PREDECESSOR : List Nat := utf8Encode ("Find_P")

/-- Opcode `b"Get_S"`. -/
def GET_SUCCESSOR : List Nat := utf8Encode ("Get_S")

/-- Opcode `b"Get_P"`. -/
def GET_PREDECESSOR : List Nat := utf8Encode ("Get_P")

/-- Opcode `b"Notify"`. -/
def NOTIFY : List Nat := utf8Encode ("Notify")

/-- Opcode `b"Ping"`. -/
def PING : List Nat := utf8Encode ("Ping")

/-- Opcode `b"Closest_PF"`. -/
def CLOSEST_PRECEDING_FINGER : List Nat := utf8Encode ("Closest_PF")

/-! ## Peer handles (`ChordNodeReference`) -/

/-- A `ChordNodeReference`: ip, port and the derived id (the constructor
sets `self.id = get_id_of_node(ip, port)`; the zmq context field carries no
ring state and is omitted). -/
structure ChordNodeReference where
  ip : String
  port : Nat
  id : Nat
deriving DecidableEq

/-- The constructor `ChordNodeReference(ip, port)`. -/
def ChordNodeReference.make (ip : String) (port : Nat) : ChordNodeReference :=
  ⟨ip, port, get_id_of_node ip port⟩

/-- The transport under `send_data`: a request to `(ip, port)` either gets a
multipart reply or nothing (`none` covers the poll timeout and every
transport exception, which `send_data` catches and converts to `None`). -/
abbrev Net := String → Nat → List (List Nat) → Option (List (List Nat))

/-- Source `ChordNodeReference.send_data(data)`: prefixes the subsystem tag
and performs one request; all transport failures come back as `none`. -/
def ChordNodeReference.send_data (net : Net) (r : ChordNodeReference)
    (data : List (List Nat)) : Option (List (List Nat)) :=
  net r.ip r.port (CHORD_SUBSYSTEM :: data)

/-- Source `ChordNodeReference.to_zmq_multipart()`: the list
`[self.ip.encode(), self.port.to_bytes()]`. `to_bytes()` is called with its
defaults (one byte, big-endian), so a port above 255 raises
`OverflowError`. -/
def ChordNodeReference.to_zmq_multipart (r : ChordNodeReference) :
    Except String (List (List Nat)) := do
  let ipb := utf8Encode r.ip
  let pb ← int_to_bytes_py r.port
  .ok [ipb, pb]

/-- The response-parsing tail shared by the peer-returning RPC methods:
`ip = response[0].decode(); port = int.from_bytes(response[1])`, then a
fresh `ChordNodeReference(ip, port)`. -/
def parse_peer_response (resp : List (List Nat)) :
    Except String ChordNodeReference :=
  match resp.get? 0 with
  | none => .error ("IndexError: list index out of range")
  | some p0 =>
    match utf8Decode p0 with
    | none => .error ("UnicodeDecodeError")
    | some ip =>
      match resp.get? 1 with
      | none => .error ("IndexError: list index out of range")
      | some p1 => .ok (ChordNodeReference.make ip (int_from_bytes p1))

/-- Source `ChordNodeReference.find_successor(id)`. The argument is
serialized with `id.to_bytes()` (defaults), so an id of 256 or more raises
`OverflowError` before anything is sent; a missing reply returns `none`. -/
def ChordNodeReference.find_successor (net : Net) (r : ChordNodeReference)
    (idq : Nat) : Except String (Option ChordNodeReference) := do
  let b ← int_to_bytes_py idq
  match r.send_data net [FIND_SUCCESSOR, b] with
  | none => .ok none
  | some resp =>
    if resp.isEmpty then .ok none else (parse_peer_response resp).map some

/-- Source `ChordNodeReference.find_predecessor(id)`. -/
def ChordNodeReference.find_predecessor (net : Net) (r : ChordNodeReference)
    (idq : Nat) : Except String (Option ChordNodeReference) := do
  let b ← int_to_bytes_py idq
  match r.send_data net [FIND_PREDECESSOR, b] with
  | none => .ok none
  | some resp =>
    if resp.isEmpty then .ok none else (parse_peer_response resp).map some

/-- The expression `id.to_bytes()` as it appears in the bodies of the
`successor` and `predecessor` properties. No local variable or parameter
named `id` is in scope there, so `id` resolves to the Python builtin
function, and reading `.to_bytes` on it raises `AttributeError` every time
the property is evaluated. -/
def builtin_id_to_bytes : Except String (List Nat) :=
  .error ("AttributeError: builtin_function_or_method object has no attribute to_bytes")

/-- Source property `ChordNodeReference.successor`: builds its request with
`id.to_bytes()`, which raises (see `builtin_id_to_bytes`) before
`send_data` is reached. -/
def ChordNodeReference.successor (net : Net) (r : ChordNodeReference) :
    Except String (Option ChordNodeReference) := do
  let b ← builtin_id_to_bytes
  match r.send_data net [GET_SUCCESSOR, b] with
  | none => .ok none
  | some resp =>
    if resp.isEmpty then .ok none else (parse_peer_response resp).map some

/-- Source property `ChordNodeReference.predecessor`: same shape, and the
same `id.to_bytes()` failure, as the `successor` property. -/
def ChordNodeReference.predecessor (net : Net) (r : ChordNodeReference) :
    Except String (Option ChordNodeReference) := do
  let b ← builtin_id_to_bytes
  match r.send_data net [GET_PREDECESSOR, b] with
  | none => .ok none
  | some resp =>
    if resp.isEmpty then .ok none else (parse_peer_response resp).map some

/-- Source `ChordNodeReference.closest_preceding_finger(id)`. -/
def ChordNodeReference.closest_preceding_finger (net : Net)
    (r : ChordNodeReference) (idq : Nat) :
    Except String (Option ChordNodeReference) := do
  let b ← int_to_bytes_py idq
  match r.send_data net [CLOSEST_PRECEDING_FINGER, b] with
  | none => .ok none
  | some resp =>
    if resp.isEmpty then .ok none else (parse_peer_response resp).map some

/-- Source `ChordNodeReference.notify(node)`: fire and forget, but the
argument `node.to_zmq_multipart()` is evaluated first and its
`OverflowError` (port above 255) propagates. -/
def ChordNodeReference.notify (net : Net) (r : ChordNodeReference)
    (node : ChordNodeReference) : Except String Unit := do
  let parts ← node.to_zmq_multipart
  let _ := r.send_data net (NOTIFY :: parts)
  .ok ()

/-- Source `ChordNodeReference.ping()`: true iff any reply arrived
(`response is not None`; an empty multipart reply still counts). -/
def ChordNodeReference.ping (net : Net) (r : ChordNodeReference) : Bool :=
  (r.send_data net [PING]).isSome

/-! ## The ring node (`ChordNode`) -/

/-- The ring state of a `ChordNode` (sockets, context and the background
threads carry no ring state and are omitted). -/
structure ChordNode where
  ip : String
  port : Nat
  id : Nat
  ref : ChordNodeReference
  successor : ChordNodeReference
  predecessor : Option ChordNodeReference
  m : Nat
  finger : List ChordNodeReference
deriving DecidableEq

/-- The `ChordNode` constructor: id derived from the address, `ref` a
self-reference, successor initialized to `ref`, no predecessor, and a
finger table of `m` copies of `ref` (`[self.ref] * self.m`). -/
def ChordNode.make (ip : String) (port : Nat) (m : Nat) : ChordNode :=
  ⟨ip, port, get_id_of_node ip port, ChordNodeReference.make ip port,
   ChordNodeReference.make ip port, none, m,
   List.replicate m (ChordNodeReference.make ip port)⟩

/-- Source `ChordNode._in_between(k, start, end)`: the plain chained
comparison `start < k <= end` (named `in_between` here because `end` and a
leading underscore are not usable in Lean). -/
def in_between (k s e : Nat) : Bool :=
  decide (s < k ∧ k ≤ e)

/-- The descending scan of `closest_preceding_finger`: indices `i` from
`m - 1` down to `0`. The Python guard `self.finger[i] and ...` first tests
the truthiness of `finger[i]`, but a `ChordNodeReference` object is always
truthy, so only the `_in_between` test remains. An index beyond the list
(impossible while `len(finger) == m`, which the constructor establishes and
element assignment preserves) is skipped rather than modelled as
`IndexError`. -/
def cpfScan (n : ChordNode) (idq : Nat) : Nat → Option ChordNodeReference
  | 0 => none
  | i + 1 =>
    match n.finger.get? i with
    | some f => if in_between f.id n.id idq then some f else cpfScan n idq i
    | none => cpfScan n idq i

/-- Source `ChordNode.closest_preceding_finger(id)`: the loop returns the
first qualifying finger; falling through the loop is Python's implicit
`return None`. -/
def ChordNode.closest_preceding_finger (n : ChordNode) (idq : Nat) :
    Option ChordNodeReference :=
  cpfScan n idq n.m

/-- Source `ChordNode.notify(node)`: adopt the peer as predecessor when
there is none, or when `_in_between(node.id, predecessor.id, self.id)`. -/
def ChordNode.notify (n : ChordNode) (p : ChordNodeReference) : ChordNode :=
  match n.predecessor with
  | none => ⟨n.ip, n.port, n.id, n.ref, n.successor, some p, n.m, n.finger⟩
  | some q =>
    if in_between p.id q.id n.id then
      ⟨n.ip, n.port, n.id, n.ref, n.successor, some p, n.m, n.finger⟩
    else n

/-- The state `ChordNode.notify` moves to when it adopts `p`: only the
predecessor field changes. -/
def ChordNode.setPred (n : ChordNode) (p : ChordNodeReference) : ChordNode :=
  ⟨n.ip, n.port, n.id, n.ref, n.successor, some p, n.m, n.finger⟩

/-- The walk of `find_predecessor` holds either the local `ChordNode`
(`node = self`, attribute reads and local calls) or a remote
`ChordNodeReference` (attribute reads of `ip`, `port`, `id` are local;
`successor` and `closest_preceding_finger` go over the wire). -/
inductive RingPeer where
  | loc : ChordNode → RingPeer
  | rem : ChordNodeReference → RingPeer

/-- The `id` attribute of the walk's current node. -/
def RingPeer.pid : RingPeer → Nat
  | .loc n => n.id
  | .rem r => r.id

/-- The `ip` attribute of the walk's current node. -/
def RingPeer.pip : RingPeer → String
  | .loc n => n.ip
  | .rem r => r.ip

/-- The `port` attribute of the walk's current node. -/
def RingPeer.pport : RingPeer → Nat
  | .loc n => n.port
  | .rem r => r.port

/-- Evaluation of the chained comparison `node.id < id <= node.successor.id`
in the loop head of `find_predecessor`. Python evaluates `node.id < id`
first and reads `node.successor` only when that half is true. For the local
node, `successor` is a plain attribute; for a remote node it is the
`successor` property (an RPC whose failures are modelled in
`ChordNodeReference.successor`), and a `None` result raises
`AttributeError` at the trailing `.id`. -/
def RingPeer.loopTest (net : Net) (idq : Nat) : RingPeer → Except String Bool
  | .loc n => .ok (decide (n.id < idq ∧ idq ≤ n.successor.id))
  | .rem r =>
    if r.id < idq then
      match ChordNodeReference.successor net r with
      | .error e => .error e
      | .ok none => .error ("AttributeError: NoneType object has no attribute id")
      | .ok (some s) => .ok (decide (idq ≤ s.id))
    else .ok false

/-- The call `node.closest_preceding_finger(id)` inside the walk: a local
method call for the local node, an RPC for a remote one. -/
def RingPeer.cpf (net : Net) (idq : Nat) : RingPeer → Except String (Option ChordNodeReference)
  | .loc n => .ok (n.closest_preceding_finger idq)
  | .rem r => ChordNodeReference.closest_preceding_finger net r idq

/-- The `while` loop of `find_predecessor`, with fuel; `none` means the
loop did not finish within `fuel` iterations. A `None` from
`closest_preceding_finger` raises `AttributeError` at the comparison
`node.id == new_node.id`. -/
def find_predecessor_loop (net : Net) (idq : Nat) :
    Nat → RingPeer → Option (Except String (String × Nat))
  | 0, _ => none
  | fuel + 1, node =>
    match node.loopTest net idq with
    | .error e => some (.error e)
    | .ok true => some (.ok (node.pip, node.pport))
    | .ok false =>
      match node.cpf net idq with
      | .error e => some (.error e)
      | .ok none => some (.error ("AttributeError: NoneType object has no attribute id"))
      | .ok (some nn) =>
        if node.pid = nn.id then some (.ok (node.pip, node.pport))
        else find_predecessor_loop net idq fuel (.rem nn)

/-- Source `ChordNode.find_predecessor(id)`: the walk starting at `self`,
then a detached `ChordNodeReference(node.ip, node.port)` for the node the
walk stopped at. -/
def ChordNode.find_predecessor (net : Net) (fuel : Nat) (n : ChordNode)
    (idq : Nat) : Option (Except String ChordNodeReference) :=
  (find_predecessor_loop net idq fuel (.loc n)).map fun r =>
    r.map fun p => ChordNodeReference.make p.1 p.2

/-- Source `ChordNode.find_successor(id)`: `find_predecessor`, then the
returned reference's `successor` property (an RPC back to that node). -/
def ChordNode.find_successor (net : Net) (fuel : Nat) (n : ChordNode)
    (idq : Nat) : Option (Except String (Option ChordNodeReference)) :=
  match n.find_predecessor net fuel idq with
  | none => none
  | some (.error e) => some (.error e)
  | some (.ok node) => some (ChordNodeReference.successor net node)

/-! ## Server dispatch (`ChordNode.start_server`) -/

/-- A hexadecimal digit character. -/
def hexDigit (n : Nat) : Char :=
  if n < 10 then Char.ofNat (48 + n) else Char.ofNat (87 + n)

/-- The single-quote character (written by code point to keep the source
free of quote characters). -/
def squoteChar : Char := Char.ofNat 39

/-- The backslash character. -/
def backslashChar : Char := Char.ofNat 92

/-- One byte of a Python `bytes` repr, escaped relative to the chosen quote
(code point `quote`). -/
def pyByteEscape (quote b : Nat) : List Char :=
  if b = 92 then [backslashChar, backslashChar]
  else if b = quote then [backslashChar, Char.ofNat quote]
  else if b = 9 then [backslashChar, 't']
  else if b = 10 then [backslashChar, 'n']
  else if b = 13 then [backslashChar, 'r']
  else if 32 ≤ b ∧ b < 127 then [Char.ofNat b]
  else [backslashChar, 'x', hexDigit (b / 16), hexDigit (b % 16)]

/-- Python `str(bs)` of a `bytes` value: its repr, like the text b followed
by the bytes between quotes. CPython uses single quotes unless the bytes
contain a single quote and no double quote. The NOTIFY handler passes the
raw `body[0]` bytes into `ChordNodeReference(ip, port)`, whose id (and any
later use of the ip) goes through an f-string, so the bytes are rendered
this way. -/
def pyBytesRepr (bs : List Nat) : String :=
  let q : Nat := if bs.contains 39 ∧ ¬ bs.contains 34 then 34 else 39
  ⟨'b' :: Char.ofNat q :: bs.foldr (fun b acc => pyByteEscape q b ++ acc) [Char.ofNat q]⟩

/-- The dispatch of one request body in `start_server`, by opcode, after
the subsystem assertion has passed: from the current node state and the
operation and body frames to either an exception (`.error`, caught by the
outer handler), or the next state plus an optional response. An overall
`none` means the handler did not terminate (only possible through
`find_predecessor`). Reading `body[0]` of an empty body is `IndexError`;
`to_zmq_multipart()` on a `None` result is `AttributeError`; both are
caught by the outer handler. -/
def handle_operation (net : Net) (fuel : Nat) (n : ChordNode)
    (operation : List Nat) (body : List (List Nat)) :
    Option (Except String (ChordNode × Option (List (List Nat)))) :=
  if operation = FIND_SUCCESSOR then
    match body.get? 0 with
    | none => some (.error ("IndexError: list index out of range"))
    | some b0 =>
      match n.find_successor net fuel (int_from_bytes b0) with
      | none => none
      | some (.error e) => some (.error e)
      | some (.ok none) =>
        some (.error ("AttributeError: NoneType object has no attribute to_zmq_multipart"))
      | some (.ok (some s)) =>
        some ((s.to_zmq_multipart).map fun parts => (n, some parts))
  else if operation = FIND_PREDECESSOR then
    match body.get? 0 with
    | none => some (.error ("IndexError: list index out of range"))
    | some b0 =>
      match n.find_predecessor net fuel (int_from_bytes b0) with
      | none => none
      | some (.error e) => some (.error e)
      | some (.ok node) =>
        some ((node.to_zmq_multipart).map fun parts => (n, some parts))
  else if operation = GET_SUCCESSOR then
    some ((n.successor.to_zmq_multipart).map fun parts => (n, some parts))
  else if operation = GET_PREDECESSOR then
    match n.predecessor with
    | some p => some ((p.to_zmq_multipart).map fun parts => (n, some parts))
    | none => some ((n.ref.to_zmq_multipart).map fun parts => (n, some parts))
  else if operation = NOTIFY then
    match body with
    | [ipB, portB] =>
      some (.ok (n.notify (ChordNodeReference.make (pyBytesRepr ipB) (int_from_bytes portB)), none))
    | _ => some (.error ("AssertionError: The NOTIFY operation requires 2 arguments. The IP address and Port"))
  else if operation = PING then
    some (.ok (n, some [[]]))
  else if operation = CLOSEST_PRECEDING_FINGER then
    match body.get? 0 with
    | none => some (.error ("IndexError: list index out of range"))
    | some b0 =>
      match n.closest_preceding_finger (int_from_bytes b0) with
      | none =>
        some (.error ("AttributeError: NoneType object has no attribute to_zmq_multipart"))
      | some node =>
        some ((node.to_zmq_multipart).map fun parts => (n, some parts))
  else some (.error ("Operation not supported"))

/-- One iteration of the `start_server` loop: receive a multipart message,
assert its shape and subsystem tag, dispatch, and send `[client_address] +
response` when the response is truthy. The outer `try`/`except` catches
every exception (including the two assertions): it is logged, nothing is
sent, the already-applied state change (only NOTIFY mutates, and never
after a point that can raise) is kept, and the loop continues. The result
is the node state after the request and the frames sent (`none` when
nothing is sent); an overall `none` means the iteration never finished. -/
def start_server_step (net : Net) (fuel : Nat) (n : ChordNode)
    (message : List (List Nat)) :
    Option (ChordNode × Option (List (List Nat))) :=
  match message with
  | addr :: subsystem :: operation :: body =>
    if subsystem = CHORD_SUBSYSTEM then
      match handle_operation net fuel n operation body with
      | none => none
      | some (.error _) => some (n, none)
      | some (.ok (n2, resp)) =>
        match resp with
        | none => some (n2, none)
        | some parts =>
          if parts.isEmpty then some (n2, none) else some (n2, some (addr :: parts))
    else some (n, none)
  | _ => some (n, none)

/-! ## The ring interval of the spec -/

/-- Modelled from the spec: `in_open_closed(k, start, end)` is true iff
walking clockwise from `start` (exclusive) to `end` (inclusive) on the ring
of size `2^m` passes through `k`; `start == end` means the full ring. The
walk visits `start+1, start+2, ...` modulo `2^m`, as many steps as the
clockwise distance from `start` to `end` (a full revolution when that
distance is zero). -/
def in_open_closed_spec (m k s e : Nat) : Bool :=
  let N := 2 ^ m
  let dist := (e + N - s) % N
  let len := if dist = 0 then N else dist
  (List.range len).any fun j => (s + 1 + j) % N = k

/-! ## Helper lemmas -/

/-- Every component of the state after one chunk compression is a 32-bit
word. -/
lemma sha1_update_bound (h : Sha1State) (c : List Nat) :
    (sha1_update h c).a < 4294967296 ∧ (sha1_update h c).b < 4294967296 ∧
    (sha1_update h c).c < 4294967296 ∧ (sha1_update h c).d < 4294967296 ∧
    (sha1_update h c).e < 4294967296 := by
  refine ⟨?_, ?_, ?_, ?_, ?_⟩ <;> exact Nat.mod_lt _ (by norm_num)

/-- The 32-bit bound survives folding any list of chunks. -/
lemma sha1_fold_bound (cs : List (List Nat)) :
    ∀ h : Sha1State, h.a < 4294967296 → h.b < 4294967296 → h.c < 4294967296 →
      h.d < 4294967296 → h.e < 4294967296 →
      (cs.foldl sha1_update h).a < 4294967296 ∧
      (cs.foldl sha1_update h).b < 4294967296 ∧
      (cs.foldl sha1_update h).c < 4294967296 ∧
      (cs.foldl sha1_update h).d < 4294967296 ∧
      (cs.foldl sha1_update h).e < 4294967296 := by
  induction cs with
  | nil => intro h ha hb hc hd he; exact ⟨ha, hb, hc, hd, he⟩
  | cons c cs ih =>
    intro h _ _ _ _ _
    have hb := sha1_update_bound h c
    simpa [List.foldl_cons] using
      ih (sha1_update h c) hb.1 hb.2.1 hb.2.2.1 hb.2.2.2.1 hb.2.2.2.2

/-- A SHA-1 digest is below `2 ^ 160`. -/
lemma sha1_digest_lt (msg : List Nat) : sha1_digest msg < 2 ^ 160 := by
  unfold sha1_digest
  dsimp only
  have hb := sha1_fold_bound
    ((List.range ((sha1_pad msg).length / 64)).map fun i => ((sha1_pad msg).drop (64 * i)).take 64)
    sha1_init (by decide) (by decide) (by decide) (by decide) (by decide)
  obtain ⟨ha, hbb, hc, hd, he⟩ := hb
  have h160 : (2 : Nat) ^ 160 = 1461501637330902918203684832716283019655932542976 := by
    norm_num
  rw [h160]
  omega

/-- Every derived node id is below `2 ^ 160`. -/
lemma get_id_of_node_lt (ip : String) (port : Nat) :
    get_id_of_node ip port < 2 ^ 160 :=
  sha1_digest_lt _

/-- Anything the finger scan returns passed the `_in_between` test. -/
lemma cpfScan_sound (n : ChordNode) (idq : Nat) :
    ∀ i f, cpfScan n idq i = some f → n.id < f.id ∧ f.id ≤ idq := by
  intro i
  induction i with
  | zero => intro f h; exact absurd h (by simp [cpfScan])
  | succ i ih =>
    intro f h
    unfold cpfScan at h
    cases hg : n.finger.get? i with
    | none => rw [hg] at h; exact ih f h
    | some g =>
      rw [hg] at h
      dsimp only at h
      by_cases hc : in_between g.id n.id idq = true
      · rw [if_pos hc] at h
        cases h
        exact of_decide_eq_true hc
      · rw [if_neg hc] at h
        exact ih f h

/-- When no finger passes the test, the scan falls through to `none`. -/
lemma cpfScan_none (n : ChordNode) (idq : Nat)
    (h : ∀ f ∈ n.finger, in_between f.id n.id idq = false) :
    ∀ i, cpfScan n idq i = none := by
  intro i
  induction i with
  | zero => rfl
  | succ i ih =>
    unfold cpfScan
    cases hg : n.finger.get? i with
    | none => exact ih
    | some g =>
      simpa [h g (List.get?_mem hg)] using ih

/-- A freshly constructed node (every finger equal to its own reference)
never finds a closer finger: its own id is never strictly above itself. -/
lemma make_cpf_none (ip : String) (port m idq : Nat) :
    ChordNode.closest_preceding_finger (ChordNode.make ip port m) idq = none := by
  unfold ChordNode.closest_preceding_finger
  apply cpfScan_none
  intro f hf
  obtain ⟨-, hf2⟩ : ¬m = 0 ∧ f = ChordNodeReference.make ip port := by
    simpa [ChordNode.make, List.mem_replicate] using hf
  subst hf2
  apply decide_eq_false
  simp only [ChordNode.make, ChordNodeReference.make]
  omega

/-- When the loop condition fails at the local node and its own
`closest_preceding_finger` falls through to `None`, the walk dereferences
`new_node.id` on `None` and raises. -/
lemma find_predecessor_loop_dead_end (net : Net) (idq fuel : Nat) (n : ChordNode)
    (hcond : decide (n.id < idq ∧ idq ≤ n.successor.id) = false)
    (hcpf : ChordNode.closest_preceding_finger n idq = none) :
    find_predecessor_loop net idq (fuel + 1) (.loc n) =
      some (.error ("AttributeError: NoneType object has no attribute id")) := by
  unfold find_predecessor_loop
  simp [RingPeer.loopTest, RingPeer.cpf, hcond, hcpf]

/-- Reduction of `v % N` when `v < 2 * N`. -/
lemma mod_window (N v : Nat) (h : v < 2 * N) :
    v % N = if v < N then v else v - N := by
  split
  · exact Nat.mod_eq_of_lt (by assumption)
  · have h2 : v - N < N := by omega
    calc v % N = ((v - N) + N) % N := by rw [Nat.sub_add_cancel (by omega)]
    _ = (v - N) % N := Nat.add_mod_right _ _
    _ = v - N := Nat.mod_eq_of_lt h2

/-- Closed form of the spec's clockwise-walk interval for points on the
ring: full ring when start equals end, the plain interval without
wraparound, and the union of the two arcs with wraparound. -/
lemma in_open_closed_spec_eq (m k s e : Nat) (hk : k < 2 ^ m) (hs : s < 2 ^ m)
    (he : e < 2 ^ m) :
    in_open_closed_spec m k s e =
      if s = e then true
      else if s < e then decide (s < k ∧ k ≤ e)
      else decide (s < k ∨ k ≤ e) := by
  have hN : 0 < 2 ^ m := pow_pos (by norm_num) m
  unfold in_open_closed_spec
  dsimp only
  by_cases hse : s = e
  · subst hse
    have hd : (s + 2 ^ m - s) % 2 ^ m = 0 := by
      rw [Nat.add_sub_cancel_left, Nat.mod_self]
    rw [hd, if_pos rfl, if_pos rfl]
    apply List.any_eq_true.mpr
    by_cases h1 : s + 1 ≤ k
    · refine ⟨k - s - 1, List.mem_range.mpr (by omega), decide_eq_true ?_⟩
      have hv : s + 1 + (k - s - 1) = k := by omega
      rw [hv, Nat.mod_eq_of_lt hk]
    · refine ⟨k + 2 ^ m - s - 1, List.mem_range.mpr (by omega), decide_eq_true ?_⟩
      have hv : s + 1 + (k + 2 ^ m - s - 1) = k + 2 ^ m := by omega
      rw [hv, Nat.add_mod_right, Nat.mod_eq_of_lt hk]
  · by_cases hlt : s < e
    · have hd : (e + 2 ^ m - s) % 2 ^ m = e - s := by
        have hv : e + 2 ^ m - s = (e - s) + 2 ^ m := by omega
        rw [hv, Nat.add_mod_right, Nat.mod_eq_of_lt (by omega)]
      rw [hd, if_neg (by omega), if_neg hse, if_pos hlt]
      by_cases hin : s < k ∧ k ≤ e
      · rw [decide_eq_true hin]
        apply List.any_eq_true.mpr
        refine ⟨k - s - 1, List.mem_range.mpr (by omega), decide_eq_true ?_⟩
        have hv : s + 1 + (k - s - 1) = k := by omega
        rw [hv, Nat.mod_eq_of_lt hk]
      · rw [decide_eq_false hin]
        apply List.any_eq_false.mpr
        intro j hj
        intro heq
        have heq2 : (s + 1 + j) % 2 ^ m = k := of_decide_eq_true heq
        have hj2 : j < e - s := List.mem_range.mp hj
        rw [Nat.mod_eq_of_lt (by omega)] at heq2
        exact hin ⟨by omega, by omega⟩
    · have hes : e < s := by omega
      have hd : (e + 2 ^ m - s) % 2 ^ m = e + 2 ^ m - s :=
        Nat.mod_eq_of_lt (by omega)
      rw [hd, if_neg (by omega), if_neg hse, if_neg hlt]
      by_cases hin : s < k ∨ k ≤ e
      · rw [decide_eq_true hin]
        apply List.any_eq_true.mpr
        cases hin with
        | inl h1 =>
          refine ⟨k - s - 1, List.mem_range.mpr (by omega), decide_eq_true ?_⟩
          have hv : s + 1 + (k - s - 1) = k := by omega
          rw [hv, Nat.mod_eq_of_lt hk]
        | inr h2 =>
          refine ⟨k + 2 ^ m - s - 1, List.mem_range.mpr (by omega), decide_eq_true ?_⟩
          have hv : s + 1 + (k + 2 ^ m - s - 1) = k + 2 ^ m := by omega
          rw [hv, Nat.add_mod_right, Nat.mod_eq_of_lt hk]
      · rw [decide_eq_false hin]
        apply List.any_eq_false.mpr
        intro j hj
        intro heq
        have heq2 : (s + 1 + j) % 2 ^ m = k := of_decide_eq_true heq
        have hj2 : j < e + 2 ^ m - s := List.mem_range.mp hj
        have hwin := mod_window (2 ^ m) (s + 1 + j) (by omega)
        rw [hwin] at heq2
        split at heq2
        · exact hin (Or.inl (by omega))
        · exact hin (Or.inr (by omega))

/-! ## Concrete peers used as inputs -/

/-- The peer handle of the node at 127.0.0.1:8001
(id 0xcbcebef432113d7e6cebb698d39a7c2ca43d3b36). -/
def ref8001 : ChordNodeReference := ChordNodeReference.make ("127.0.0.1") 8001

/-- The peer handle of the node at 127.0.0.1:8002
(id 0x3147a8d557829ef59d5e7f73e0ba6942b13290ce). -/
def ref8002 : ChordNodeReference := ChordNodeReference.make ("127.0.0.1") 8002

/-- The peer handle of the node at 127.0.0.1:8003
(id 0xd30d65127e11133e83e2c5539d80b8fdb23ea1b9). -/
def ref8003 : ChordNodeReference := ChordNodeReference.make ("127.0.0.1") 8003

/-- The peer handle of the node at 127.0.0.1:8005
(id 0x5e96f785ac78abf74b998c7f4c9b2dd07faa2b02). -/
def ref8005 : ChordNodeReference := ChordNodeReference.make ("127.0.0.1") 8005

/-- A two-node ring state of the node at 127.0.0.1:8002 with `m = 1`: its
successor is the node at port 8001 (whose id is the larger of the two), and
its one finger slot points at that successor. -/
def nodeAt8002 : ChordNode :=
  ⟨"127.0.0.1", 8002, get_id_of_node ("127.0.0.1") 8002, ref8002, ref8001,
   none, 1, [ref8001]⟩

/-- A ring state of the node at 127.0.0.1:8005 whose recorded predecessor
is the node at port 8003; the predecessor's id (0xd30d...) is larger than
the node's own id (0x5e96...), so the predecessor interval wraps around
the ring. -/
def nodeAt8005 : ChordNode :=
  ⟨"127.0.0.1", 8005, get_id_of_node ("127.0.0.1") 8005, ref8005, ref8005,
   some ref8003, 160, List.replicate 160 ref8005⟩

/-! ## Claims -/

/-- C1 (counterexample): with ring width m = 2, walking clockwise from 2
(exclusive) to 1 (inclusive) passes through 0 (the walk is 3, 0, 1), but
`_in_between(0, 2, 1)` is false: the claimed equivalence with the clockwise
interval fails on wraparound. -/
theorem in_between_wraparound_counterexample :
    in_between 0 2 1 = false ∧ in_open_closed_spec 2 0 2 1 = true := by
  decide

/-- C1 (amended): `_in_between(k, start, end)` is the plain comparison
`start < k ≤ end`; it agrees with the spec's clockwise interval exactly
when `start < end`, and is constantly false when `end ≤ start` — including
the wraparound case and the `start = end` full-ring convention. -/
theorem in_between_plain_characterization :
    ∀ (m k s e : Nat), k < 2 ^ m → s < 2 ^ m → e < 2 ^ m →
      (in_between k s e = true ↔ s < k ∧ k ≤ e) ∧
      (s < e → in_between k s e = in_open_closed_spec m k s e) ∧
      (e ≤ s → in_between k s e = false) := by
  intro m k s e hk hs he
  refine ⟨by simp [in_between], ?_, ?_⟩
  · intro hlt
    rw [in_open_closed_spec_eq m k s e hk hs he, if_neg (by omega), if_pos hlt]
    rfl
  · intro hle
    apply decide_eq_false
    omega

/-- C1 (witness): the amended characterization at m = 2, k = 2, start = 1,
end = 3. -/
theorem in_between_plain_characterization_witness :
    (in_between 2 1 3 = true ↔ 1 < 2 ∧ 2 ≤ 3) ∧
    ((1 : Nat) < 3 → in_between 2 1 3 = in_open_closed_spec 2 2 1 3) ∧
    ((3 : Nat) ≤ 1 → in_between 2 1 3 = false) :=
  in_between_plain_characterization 2 2 1 3 (by decide) (by decide) (by decide)

/-- C5 (code bug): reading the `successor` property of any
`ChordNodeReference` raises `AttributeError` unconditionally — its body
builds the request with `id.to_bytes()` where `id` is the Python builtin
function — instead of returning an absence value only on transport
failure. -/
theorem successor_property_always_raises :
    ∀ (net : Net) (r : ChordNodeReference),
      ChordNodeReference.successor net r =
        .error ("AttributeError: builtin_function_or_method object has no attribute to_bytes") :=
  fun _ _ => rfl

/-- C6 (code bug): encoding the peer handle of 127.0.0.1:8001 — the
module's default port — raises `OverflowError`, because
`self.port.to_bytes()` uses the default length of one byte and 8001 does
not fit; the claimed encode/decode round trip for any uint16 port never
gets past encoding. -/
theorem to_zmq_multipart_default_port_overflows :
    ChordNodeReference.to_zmq_multipart (ChordNodeReference.make ("127.0.0.1") 8001) =
      .error ("OverflowError: int too big to convert") := by
  rfl

/-- C7 (counterexample): the id of the node at 127.0.0.1:8001 is its full
160-bit SHA-1 digest and does not lie in [0, 2^8): no reduction modulo
`2^m` is applied for a configurable ring width m. -/
theorem get_id_of_node_exceeds_small_ring :
    ¬(get_id_of_node ("127.0.0.1") 8001 < 2 ^ 8) := by
  decide

/-- C7 (amended): `get_id_of_node(ip, port)` is exactly the SHA-1 digest of
the UTF-8 string ip:port interpreted as a big-endian unsigned integer,
with no modular reduction; it always lies in [0, 2^160), hence in
[0, 2^m) only at the default width m = 160. -/
theorem get_id_of_node_no_reduction_bound :
    ∀ (ip : String) (port : Nat),
      get_id_of_node ip port = getShaRepr (ip ++ ":" ++ toString port) ∧
      get_id_of_node ip port < 2 ^ 160 :=
  fun ip port => ⟨rfl, get_id_of_node_lt ip port⟩

/-- C2 (counterexample): at `nodeAt8002`, querying
`closest_preceding_finger` with exactly the id of the finger entry at port
8001 returns that entry, whose id equals the query id — it is not strictly
below the query id, so the returned node is not strictly between `self_id`
and the query id (exclusive at both ends). -/
theorem closest_preceding_finger_returns_query_id :
    ChordNode.closest_preceding_finger nodeAt8002 ref8001.id = some ref8001 ∧
    ¬(ref8001.id < ref8001.id) := by
  exact ⟨by rfl, Nat.lt_irrefl _⟩

/-- C2 (amended): any finger returned by `closest_preceding_finger(id)`
satisfies `self_id < finger.id ≤ id` under plain integer comparison — it is
strictly above `self_id` but may equal the query id, since the code reuses
the half-open `_in_between` test instead of an interval open at both
ends. -/
theorem closest_preceding_finger_sound_plain :
    ∀ (n : ChordNode) (idq : Nat) (f : ChordNodeReference),
      ChordNode.closest_preceding_finger n idq = some f →
      n.id < f.id ∧ f.id ≤ idq := by
  intro n idq f h
  exact cpfScan_sound n idq n.m f h

/-- C2 (witness): the amended soundness statement at `nodeAt8002` with the
query id equal to the id of the node at port 8001. -/
theorem closest_preceding_finger_sound_plain_witness :
    nodeAt8002.id < ref8001.id ∧ ref8001.id ≤ ref8001.id :=
  closest_preceding_finger_sound_plain nodeAt8002 ref8001.id ref8001 (by rfl)

/-- C10 (confirmed): when no finger entry passes the plain test
`self.id < finger.id ≤ id`, the scan of `closest_preceding_finger` falls
through and yields no peer at all — Python's implicit `None` — with no
fallback to `self` or to the successor. -/
theorem closest_preceding_finger_no_fallback :
    ∀ (n : ChordNode) (idq : Nat),
      (∀ f ∈ n.finger, ¬(n.id < f.id ∧ f.id ≤ idq)) →
      ChordNode.closest_preceding_finger n idq = none := by
  intro n idq h
  exact cpfScan_none n idq (fun f hf => decide_eq_false (h f hf)) n.m

/-- C10 (witness): a freshly constructed node at 127.0.0.1:8001 with
m = 2 (every finger is itself) and query id 0. -/
theorem closest_preceding_finger_no_fallback_witness :
    ChordNode.closest_preceding_finger (ChordNode.make ("127.0.0.1") 8001 2) 0 = none :=
  closest_preceding_finger_no_fallback (ChordNode.make ("127.0.0.1") 8001 2) 0 (by
    intro f hf
    obtain ⟨-, hf2⟩ : ¬(2 : Nat) = 0 ∧ f = ChordNodeReference.make ("127.0.0.1") 8001 := by
      simpa [ChordNode.make, List.mem_replicate] using hf
    subst hf2
    simp only [ChordNode.make, ChordNodeReference.make]
    omega)

/-- C3 (code bug): at a freshly started node (no peers, every finger equal
to itself), `find_predecessor(0)` hits the algorithmic dead end —
`closest_preceding_finger` finds no strictly closer node and returns
`None` — and the walk then raises `AttributeError` at
`node.id == new_node.id`, instead of stopping with the best known answer. -/
theorem find_predecessor_dead_end_raises :
    ∀ (net : Net) (fuel : Nat),
      ChordNode.find_predecessor net (fuel + 1) (ChordNode.make ("127.0.0.1") 8001 160) 0 =
        some (.error ("AttributeError: NoneType object has no attribute id")) := by
  intro net fuel
  have hc : decide ((ChordNode.make ("127.0.0.1") 8001 160).id < 0 ∧
      (0 : Nat) ≤ (ChordNode.make ("127.0.0.1") 8001 160).successor.id) = false := by
    apply decide_eq_false
    omega
  unfold ChordNode.find_predecessor
  rw [find_predecessor_loop_dead_end net 0 fuel _ hc (make_cpf_none _ _ _ _)]
  rfl

/-- C4 (code bug): at a node with no peers (successor itself, predecessor
absent, every finger itself), `find_successor(x)` raises `AttributeError`
for every identifier x — the inner `find_predecessor` walk dereferences the
`None` returned by `closest_preceding_finger` — instead of returning the
node's own reference. -/
theorem find_successor_single_node_raises :
    ∀ (net : Net) (fuel x : Nat),
      ChordNode.find_successor net (fuel + 1) (ChordNode.make ("127.0.0.1") 8001 160) x =
        some (.error ("AttributeError: NoneType object has no attribute id")) := by
  intro net fuel x
  have hc : decide ((ChordNode.make ("127.0.0.1") 8001 160).id < x ∧
      x ≤ (ChordNode.make ("127.0.0.1") 8001 160).successor.id) = false := by
    apply decide_eq_false
    simp only [ChordNode.make, ChordNodeReference.make]
    omega
  have hfp : ChordNode.find_predecessor net (fuel + 1) (ChordNode.make ("127.0.0.1") 8001 160) x =
      some (.error ("AttributeError: NoneType object has no attribute id")) := by
    unfold ChordNode.find_predecessor
    rw [find_predecessor_loop_dead_end net x fuel _ hc (make_cpf_none _ _ _ _)]
    rfl
  unfold ChordNode.find_successor
  rw [hfp]

/-- C8 (counterexample): at `nodeAt8005` (predecessor 8003 with the larger
id, so the ring interval from the predecessor to the node wraps), the
peer at port 8002 lies in the clockwise interval
`(predecessor.id, self_id]`, yet `notify` leaves the predecessor
unchanged: the plain `_in_between` test cannot see across the wrap. -/
theorem notify_wraparound_counterexample :
    (ChordNode.notify nodeAt8005 ref8002).predecessor = some ref8003 ∧
    in_open_closed_spec 160 ref8002.id ref8003.id nodeAt8005.id = true ∧
    ref8002 ≠ ref8003 := by
  refine ⟨by rfl, ?_, by decide⟩
  rw [in_open_closed_spec_eq 160 ref8002.id ref8003.id nodeAt8005.id
    (get_id_of_node_lt _ _) (get_id_of_node_lt _ _) (get_id_of_node_lt _ _)]
  rw [if_neg (by decide), if_neg (by decide)]
  decide

/-- C8 (amended): `notify(p)` adopts `p` as predecessor iff the node has no
predecessor, or `predecessor.id < p.id ≤ self_id` holds as plain integers;
in every other case — in particular always when the recorded predecessor's
id is above the node's own id, the wraparound configuration — the
predecessor is left unchanged. -/
theorem notify_plain_characterization :
    ∀ (n : ChordNode) (p : ChordNodeReference),
      (n.predecessor = none → ChordNode.notify n p = ChordNode.setPred n p) ∧
      (∀ q, n.predecessor = some q →
        ((q.id < p.id ∧ p.id ≤ n.id) → ChordNode.notify n p = ChordNode.setPred n p) ∧
        (¬(q.id < p.id ∧ p.id ≤ n.id) → ChordNode.notify n p = n) ∧
        (n.id < q.id → ChordNode.notify n p = n)) := by
  intro n p
  constructor
  · intro h
    unfold ChordNode.notify ChordNode.setPred
    rw [h]
  · intro q hq
    refine ⟨?_, ?_, ?_⟩
    · intro hin
      unfold ChordNode.notify ChordNode.setPred
      rw [hq]
      dsimp only
      rw [if_pos (by exact decide_eq_true hin)]
    · intro hnin
      unfold ChordNode.notify
      rw [hq]
      dsimp only
      rw [if_neg (by simpa [in_between] using hnin)]
    · intro hwrap
      unfold ChordNode.notify
      rw [hq]
      dsimp only
      rw [if_neg (by simp only [in_between, decide_eq_true_eq]; omega)]

/-- C9 (confirmed): a well-framed request whose opcode is none of the seven
recognized operation codes makes the server send nothing and leave the
node state unchanged; the raised `Operation not supported` is caught by
the loop's handler, so the iteration completes and the listener
survives. -/
theorem unknown_opcode_dropped :
    ∀ (net : Net) (fuel : Nat) (n : ChordNode) (addr op : List Nat)
      (body : List (List Nat)),
      op ∉ [FIND_SUCCESSOR, FIND_PREDECESSOR, GET_SUCCESSOR, GET_PREDECESSOR,
        NOTIFY, PING, CLOSEST_PRECEDING_FINGER] →
      start_server_step net fuel n (addr :: CHORD_SUBSYSTEM :: op :: body) =
        some (n, none) := by
  intro net fuel n addr op body h
  simp only [List.mem_cons, List.mem_singleton, not_or, List.not_mem_nil] at h
  obtain ⟨h1, h2, h3, h4, h5, h6, h7⟩ :
      op ≠ FIND_SUCCESSOR ∧ op ≠ FIND_PREDECESSOR ∧ op ≠ GET_SUCCESSOR ∧
      op ≠ GET_PREDECESSOR ∧ op ≠ NOTIFY ∧ op ≠ PING ∧
      op ≠ CLOSEST_PRECEDING_FINGER := by tauto
  unfold start_server_step handle_operation
  dsimp only
  rw [if_pos rfl, if_neg h1, if_neg h2, if_neg h3, if_neg h4, if_neg h5,
    if_neg h6, if_neg h7]

/-- C9 (witness): the opcode Store_K (a storage opcode the module comments
out) at a concrete node and message. -/
theorem unknown_opcode_dropped_witness :
    start_server_step (fun _ _ _ => none) 0 (ChordNode.make ("127.0.0.1") 8003 2)
      ([[48], CHORD_SUBSYSTEM, utf8Encode ("Store_K"), [0]]) =
      some (ChordNode.make ("127.0.0.1") 8003 2, none) :=
  unknown_opcode_dropped (fun _ _ _ => none) 0 (ChordNode.make ("127.0.0.1") 8003 2)
    [48] (utf8Encode ("Store_K")) [[0]] (by decide)
